import Mathlib

/-!
Shallow embedding of the client-side state-synchronization core of the
VertiPlant monitoring dashboard (src/src/App.tsx): the four-resource poll
cycle (`fetchData`), the push-channel handler for topic `send_sensor_data`,
the mount/unmount effect, and the pure view helper `formatUptime`.
-/

/-- Camera record (App.tsx lines 8-14). -/
structure Camera where
  id : Int
  name : Option String
  device : String
  streamPort : Int
  streamUrl : String
deriving DecidableEq

/-- Prediction record (App.tsx lines 16-21). In the source `result` is typed
`any` and is only passed through by the core, never interpreted; it is
embedded here as an uninterpreted string payload. -/
structure Prediction where
  cameraId : Int
  model : String
  timestamp : String
  result : String
deriving DecidableEq

/-- Status record (App.tsx lines 23-29). -/
structure Status where
  cameras : Int
  models : List String
  currentModel : Option String
  totalPredictions : Int
  uptime : Nat
deriving DecidableEq

/-- SystemError record (App.tsx lines 31-35). -/
structure SystemError where
  cameraId : Int
  error : String
  timestamp : String
deriving DecidableEq

/-- The snapshot: the four `useState` cells of the App component
(App.tsx lines 38-41). -/
structure AppState where
  cameras : List Camera
  predictions : List Prediction
  status : Option Status
  errors : List SystemError
deriving DecidableEq

/-- Initial snapshot: `useState` initial values — empty lists and a null
status (App.tsx lines 38-41). -/
def initState : AppState :=
  { cameras := [], predictions := [], status := none, errors := [] }

/-- Outcome of one `fetch` call as the poll cycle observes it:
either the promise rejects (network error), or a response resolves with an
`ok` flag and a body; `body = none` embeds `res.json()` throwing
(decode failure). -/
inductive FetchResult (α : Type) where
  | reject : FetchResult α
  | response (ok : Bool) (body : Option α) : FetchResult α
deriving DecidableEq

/-- A resolved fetch whose `json()` would not throw: either a non-ok status
(in which case the body is never decoded) or an ok status with a decodable
body. `reject` is not of this kind. -/
def FetchResult.noThrow {α : Type} : FetchResult α → Bool
  | .reject => false
  | .response ok body => !ok || body.isSome

/-- The promise settled with a response (possibly non-ok); `reject` did not. -/
def FetchResult.settles {α : Type} : FetchResult α → Bool
  | .reject => false
  | .response _ _ => true

/-- The four polled resources. -/
inductive Resource where
  | cameras
  | predictions
  | status
  | errors
deriving DecidableEq

/-- One application of a state setter during a poll cycle, recorded with the
value written. -/
inductive SetterEvent where
  | setCameras (v : List Camera)
  | setPredictions (v : List Prediction)
  | setStatus (v : Status)
  | setErrors (v : List SystemError)
deriving DecidableEq

/-- The resource a setter application belongs to. -/
def SetterEvent.resource : SetterEvent → Resource
  | .setCameras _ => .cameras
  | .setPredictions _ => .predictions
  | .setStatus _ => .status
  | .setErrors _ => .errors

/-- `if (errorsRes.ok) setErrors(await errorsRes.json());` (App.tsx line 56).
A decode throw here is caught by the surrounding catch with no further
statements to skip. -/
def stageErrors (eok : Bool) (eb : Option (List SystemError))
    (acc : AppState × List SetterEvent) : AppState × List SetterEvent :=
  if eok then
    match eb with
    | some v => ({ acc.1 with errors := v }, acc.2 ++ [SetterEvent.setErrors v])
    | none => acc
  else acc

/-- `if (statusRes.ok) setStatus(await statusRes.json());` (App.tsx line 55).
If `statusRes.json()` throws, the catch runs and the errors stage is skipped,
but the writes already made persist. -/
def stageStatus (sok : Bool) (sb : Option Status) (eok : Bool)
    (eb : Option (List SystemError))
    (acc : AppState × List SetterEvent) : AppState × List SetterEvent :=
  if sok then
    match sb with
    | some v =>
        stageErrors eok eb
          ({ acc.1 with status := some v }, acc.2 ++ [SetterEvent.setStatus v])
    | none => acc
  else stageErrors eok eb acc

/-- `if (predictionsRes.ok) setPredictions(await predictionsRes.json());`
(App.tsx line 54): full replacement of the prediction sequence. -/
def stagePredictions (pok : Bool) (pb : Option (List Prediction)) (sok : Bool)
    (sb : Option Status) (eok : Bool) (eb : Option (List SystemError))
    (acc : AppState × List SetterEvent) : AppState × List SetterEvent :=
  if pok then
    match pb with
    | some v =>
        stageStatus sok sb eok eb
          ({ acc.1 with predictions := v }, acc.2 ++ [SetterEvent.setPredictions v])
    | none => acc
  else stageStatus sok sb eok eb acc

/-- `if (camerasRes.ok) setCameras(await camerasRes.json());`
(App.tsx line 53). -/
def stageCameras (cok : Bool) (cb : Option (List Camera)) (pok : Bool)
    (pb : Option (List Prediction)) (sok : Bool) (sb : Option Status)
    (eok : Bool) (eb : Option (List SystemError))
    (acc : AppState × List SetterEvent) : AppState × List SetterEvent :=
  if cok then
    match cb with
    | some v =>
        stagePredictions pok pb sok sb eok eb
          ({ acc.1 with cameras := v }, acc.2 ++ [SetterEvent.setCameras v])
    | none => acc
  else stagePredictions pok pb sok sb eok eb acc

/-- The body of `fetchData` (App.tsx lines 44-60), also returning the trace of
setter applications of the cycle. `await Promise.all` rejects as soon as any
of the four fetches rejects; the surrounding try/catch then logs and applies
no setter. When all four resolve, the four guarded setters run in source
order; an `await res.json()` throw lands in the same catch, keeping the
writes already made and skipping the rest. -/
def fetchDataT (c : FetchResult (List Camera)) (p : FetchResult (List Prediction))
    (s : FetchResult Status) (e : FetchResult (List SystemError))
    (st : AppState) : AppState × List SetterEvent :=
  match c, p, s, e with
  | .response cok cb, .response pok pb, .response sok sb, .response eok eb =>
      stageCameras cok cb pok pb sok sb eok eb (st, [])
  | _, _, _, _ => (st, [])

/-- The snapshot after one run of `fetchData`. -/
def fetchData (c : FetchResult (List Camera)) (p : FetchResult (List Prediction))
    (s : FetchResult Status) (e : FetchResult (List SystemError))
    (st : AppState) : AppState :=
  (fetchDataT c p s e st).1

/-- One poll cycle including the `Promise.all` join. `arrival` is the order in
which the four HTTP responses arrive on the wire; `Promise.all` suspends the
cycle until the last of them has arrived and then hands the results to the
body positionally (App.tsx lines 46-51), so the body cannot observe, and does
not depend on, the arrival order. -/
def pollCycleTrace (_arrival : List Resource) (c : FetchResult (List Camera))
    (p : FetchResult (List Prediction)) (s : FetchResult Status)
    (e : FetchResult (List SystemError)) (st : AppState) :
    AppState × List SetterEvent :=
  fetchDataT c p s e st

/-- The `send_sensor_data` handler (App.tsx lines 76-79):
`JSON.parse(data)` followed by a functional prepend via `setPredictions`.
`JSON.parse` is the host's decoder and is embedded as an abstract
`parse : String → Option Prediction`; `parse data = none` embeds it throwing.
The handler has no try/catch, so a decode failure escapes the handler as an
error (`Except.error`), and no setter runs in that invocation. -/
def sensorDataHandler (parse : String → Option Prediction) (data : String)
    (st : AppState) : Except String AppState :=
  match parse data with
  | none => .error "SyntaxError: JSON.parse"
  | some parsedData =>
      .ok { st with predictions := parsedData :: st.predictions }

/-- An event observed by the snapshot: one poll cycle resolving, or one push
frame arriving on topic `send_sensor_data`. All handlers run on the single
UI execution context, so events apply one at a time, in order. -/
inductive Event where
  | poll (c : FetchResult (List Camera)) (p : FetchResult (List Prediction))
      (s : FetchResult Status) (e : FetchResult (List SystemError)) : Event
  | push (data : String) : Event

/-- How one event transforms the snapshot. A push whose payload fails to
decode escapes to the host's unhandled-error behavior and leaves the snapshot
unchanged. -/
def step (parse : String → Option Prediction) (st : AppState) : Event → AppState
  | .poll c p s e => fetchData c p s e st
  | .push data =>
      match sensorDataHandler parse data st with
      | .ok st' => st'
      | .error _ => st

/-- The snapshot after a sequence of events starting from the initial mount
state. -/
def run (parse : String → Option Prediction) (evs : List Event) : AppState :=
  evs.foldl (step parse) initState

/-- The event is a poll cycle whose `/status` fetch resolved ok with a
decodable body (so its `setStatus` runs). -/
def hasStatusSuccess : Event → Bool
  | .poll _ _ (.response true (some _)) _ => true
  | _ => false

/-- `formatUptime` (App.tsx lines 85-89), on the non-negative integers:
`Math.floor` on a non-negative quotient is truncating division. -/
def formatUptime (seconds : Nat) : String :=
  let hours := seconds / 3600
  let minutes := seconds % 3600 / 60
  toString hours ++ "h " ++ toString minutes ++ "m"

/-- Host-level registrations owned by the component: active `setInterval`
poll triggers and active `send_sensor_data` socket subscriptions. -/
structure HostHandles where
  pollIntervals : Nat
  sensorSubscriptions : Nat
deriving DecidableEq

/-- The mount effect (App.tsx lines 62-81): it connects a new socket, adds a
`send_sensor_data` listener and starts the 1-second poll interval. -/
def mountEffect (r : HostHandles) : HostHandles :=
  { pollIntervals := r.pollIntervals + 1,
    sensorSubscriptions := r.sensorSubscriptions + 1 }

/-- The effect cleanup returned on unmount (App.tsx line 82):
`() => clearInterval(interval)`. It cancels the poll interval only; no
`socket.disconnect()` or `socket.off` call appears anywhere in the effect,
so the socket subscription is not released. -/
def effectCleanup (r : HostHandles) : HostHandles :=
  { r with pollIntervals := r.pollIntervals - 1 }

/-- Sample camera for concrete instances. -/
def cam1 : Camera :=
  { id := 1, name := some "Cam 1", device := "video0", streamPort := 9101,
    streamUrl := "http://localhost:9101" }

/-- Sample predictions for concrete instances. -/
def pred0 : Prediction :=
  { cameraId := 1, model := "m0", timestamp := "t0", result := "r0" }

def pred1 : Prediction :=
  { cameraId := 1, model := "m1", timestamp := "t1", result := "r1" }

def pred2 : Prediction :=
  { cameraId := 2, model := "m2", timestamp := "t2", result := "r2" }

def predA : Prediction :=
  { cameraId := 1, model := "mA", timestamp := "tA", result := "rA" }

def predB : Prediction :=
  { cameraId := 2, model := "mB", timestamp := "tB", result := "rB" }

/-- Sample status for concrete instances. -/
def stat1 : Status :=
  { cameras := 1, models := ["m0"], currentModel := some "m0",
    totalPredictions := 3, uptime := 3661 }

/-- A second sample status, fully different from `stat1` field by field. -/
def stat2 : Status :=
  { cameras := 2, models := ["m0", "m1"], currentModel := none,
    totalPredictions := 9, uptime := 7200 }

/-- Sample system error for concrete instances. -/
def err1 : SystemError :=
  { cameraId := 1, error := "capture failed", timestamp := "t9" }

/-- A sample concrete decoder standing for `JSON.parse` in witnesses: it
decodes the single well-formed payload `"payload0"` and throws on anything
else. -/
def parse0 : String → Option Prediction :=
  fun s => if s = "payload0" then some pred0 else none

/-! Helper lemmas about the poll-cycle stages. -/

theorem stageErrors_status (eok : Bool) (eb : Option (List SystemError))
    (acc : AppState × List SetterEvent) :
    (stageErrors eok eb acc).1.status = acc.1.status := by
  cases eok <;> cases eb <;> rfl

theorem stageErrors_predictions (eok : Bool) (eb : Option (List SystemError))
    (acc : AppState × List SetterEvent) :
    (stageErrors eok eb acc).1.predictions = acc.1.predictions := by
  cases eok <;> cases eb <;> rfl

theorem stageStatus_predictions (sok : Bool) (sb : Option Status) (eok : Bool)
    (eb : Option (List SystemError)) (acc : AppState × List SetterEvent) :
    (stageStatus sok sb eok eb acc).1.predictions = acc.1.predictions := by
  cases sok
  · exact stageErrors_predictions eok eb acc
  · cases sb
    · rfl
    · exact stageErrors_predictions eok eb _

theorem stageStatus_status_sets (v : Status) (eok : Bool)
    (eb : Option (List SystemError)) (acc : AppState × List SetterEvent) :
    (stageStatus true (some v) eok eb acc).1.status = some v :=
  stageErrors_status eok eb _

theorem stageStatus_status_skip (sok : Bool) (sb : Option Status) (eok : Bool)
    (eb : Option (List SystemError)) (acc : AppState × List SetterEvent)
    (h : sok = true → sb = none) :
    (stageStatus sok sb eok eb acc).1.status = acc.1.status := by
  cases sok
  · exact stageErrors_status eok eb acc
  · rw [h rfl]
    rfl

theorem stagePredictions_status_sets (pok : Bool) (pb : Option (List Prediction))
    (v : Status) (eok : Bool) (eb : Option (List SystemError))
    (acc : AppState × List SetterEvent)
    (hp : pok = false ∨ ∃ w, pb = some w) :
    (stagePredictions pok pb true (some v) eok eb acc).1.status = some v := by
  cases pok
  · exact stageStatus_status_sets v eok eb acc
  · rcases hp with h | ⟨w, h⟩
    · exact absurd h (by decide)
    · subst h
      exact stageStatus_status_sets v eok eb _

theorem stagePredictions_status_skip (pok : Bool) (pb : Option (List Prediction))
    (sok : Bool) (sb : Option Status) (eok : Bool) (eb : Option (List SystemError))
    (acc : AppState × List SetterEvent) (h : sok = true → sb = none) :
    (stagePredictions pok pb sok sb eok eb acc).1.status = acc.1.status := by
  cases pok
  · exact stageStatus_status_skip sok sb eok eb acc h
  · cases pb
    · rfl
    · exact stageStatus_status_skip sok sb eok eb _ h

theorem stagePredictions_sets (w : List Prediction) (sok : Bool) (sb : Option Status)
    (eok : Bool) (eb : Option (List SystemError)) (acc : AppState × List SetterEvent) :
    (stagePredictions true (some w) sok sb eok eb acc).1.predictions = w :=
  stageStatus_predictions sok sb eok eb _

theorem stageCameras_status_sets (cok : Bool) (cb : Option (List Camera))
    (pok : Bool) (pb : Option (List Prediction)) (v : Status) (eok : Bool)
    (eb : Option (List SystemError)) (acc : AppState × List SetterEvent)
    (hc : cok = false ∨ ∃ u, cb = some u) (hp : pok = false ∨ ∃ w, pb = some w) :
    (stageCameras cok cb pok pb true (some v) eok eb acc).1.status = some v := by
  cases cok
  · exact stagePredictions_status_sets pok pb v eok eb acc hp
  · rcases hc with h | ⟨u, h⟩
    · exact absurd h (by decide)
    · subst h
      exact stagePredictions_status_sets pok pb v eok eb _ hp

theorem stageCameras_status_skip (cok : Bool) (cb : Option (List Camera))
    (pok : Bool) (pb : Option (List Prediction)) (sok : Bool) (sb : Option Status)
    (eok : Bool) (eb : Option (List SystemError))
    (acc : AppState × List SetterEvent) (h : sok = true → sb = none) :
    (stageCameras cok cb pok pb sok sb eok eb acc).1.status = acc.1.status := by
  cases cok
  · exact stagePredictions_status_skip pok pb sok sb eok eb acc h
  · cases cb
    · rfl
    · exact stagePredictions_status_skip pok pb sok sb eok eb _ h

theorem stageCameras_predictions_sets (cok : Bool) (cb : Option (List Camera))
    (w : List Prediction) (sok : Bool) (sb : Option Status) (eok : Bool)
    (eb : Option (List SystemError)) (acc : AppState × List SetterEvent)
    (hc : cok = false ∨ ∃ u, cb = some u) :
    (stageCameras cok cb true (some w) sok sb eok eb acc).1.predictions = w := by
  cases cok
  · exact stagePredictions_sets w sok sb eok eb acc
  · rcases hc with h | ⟨u, h⟩
    · exact absurd h (by decide)
    · subst h
      exact stagePredictions_sets w sok sb eok eb _

theorem noThrow_response {α : Type} (ok : Bool) (b : Option α)
    (h : (FetchResult.response ok b).noThrow = true) :
    ok = false ∨ ∃ v, b = some v := by
  cases ok
  · exact Or.inl rfl
  · cases b with
    | none => simp [FetchResult.noThrow] at h
    | some v => exact Or.inr ⟨v, rfl⟩

theorem fetchData_predictions_sets (c : FetchResult (List Camera))
    (w : List Prediction) (s : FetchResult Status) (e : FetchResult (List SystemError))
    (st : AppState) (hc : c.noThrow = true) (hs : s.settles = true)
    (he : e.settles = true) :
    (fetchData c (.response true (some w)) s e st).predictions = w := by
  cases c with
  | reject => simp [FetchResult.noThrow] at hc
  | response cok cb =>
    cases s with
    | reject => simp [FetchResult.settles] at hs
    | response sok sb =>
      cases e with
      | reject => simp [FetchResult.settles] at he
      | response eok eb =>
        exact stageCameras_predictions_sets cok cb w sok sb eok eb (st, [])
          (noThrow_response cok cb hc)

theorem fetchData_status_sets (c : FetchResult (List Camera))
    (p : FetchResult (List Prediction)) (v : Status)
    (e : FetchResult (List SystemError)) (st : AppState)
    (hc : c.noThrow = true) (hp : p.noThrow = true) (he : e.settles = true) :
    (fetchData c p (.response true (some v)) e st).status = some v := by
  cases c with
  | reject => simp [FetchResult.noThrow] at hc
  | response cok cb =>
    cases p with
    | reject => simp [FetchResult.noThrow] at hp
    | response pok pb =>
      cases e with
      | reject => simp [FetchResult.settles] at he
      | response eok eb =>
        exact stageCameras_status_sets cok cb pok pb v eok eb (st, [])
          (noThrow_response cok cb hc) (noThrow_response pok pb hp)

theorem step_status_of_no_success (parse : String → Option Prediction)
    (st : AppState) (ev : Event) (h : hasStatusSuccess ev = false) :
    (step parse st ev).status = st.status := by
  cases ev with
  | push data =>
    cases hp : parse data <;> simp [step, sensorDataHandler, hp]
  | poll c p s e =>
    cases c with
    | reject => cases p <;> cases s <;> cases e <;> rfl
    | response cok cb =>
      cases p with
      | reject => cases s <;> cases e <;> rfl
      | response pok pb =>
        cases s with
        | reject => cases e <;> rfl
        | response sok sb =>
          cases e with
          | reject => rfl
          | response eok eb =>
            have hs : sok = true → sb = none := by
              intro hsok
              subst hsok
              cases sb with
              | none => rfl
              | some v => simp [hasStatusSuccess] at h
            exact stageCameras_status_skip cok cb pok pb sok sb eok eb (st, []) hs

theorem run_status_none_aux (parse : String → Option Prediction)
    (evs : List Event) :
    ∀ st : AppState, (∀ ev ∈ evs, hasStatusSuccess ev = false) →
      (evs.foldl (step parse) st).status = st.status := by
  induction evs with
  | nil => intro st _; rfl
  | cons ev evs ih =>
    intro st h
    rw [List.foldl_cons]
    have h2 : ∀ x ∈ evs, hasStatusSuccess x = false := fun x hx =>
      h x (List.mem_cons_of_mem ev hx)
    rw [ih (step parse st ev) h2]
    exact step_status_of_no_success parse st ev (h ev (List.mem_cons_self ev evs))

/-! The claims. -/

/-- C1 (counterexample): the claim covers a fetch that fails by network error.
On the code, a rejected `/errors` fetch makes `await Promise.all` reject, the
catch swallows it, and none of the other three entities is updated either:
polling with successful cameras/predictions/status responses and a rejected
errors fetch from the initial state leaves the snapshot untouched, refuting
the claimed update of the three successful resources. -/
theorem C1_counterexample :
    ¬ ((fetchData (.response true (some [cam1])) (.response true (some [pred1]))
          (.response true (some stat1)) .reject initState).cameras = [cam1] ∧
       (fetchData (.response true (some [cam1])) (.response true (some [pred1]))
          (.response true (some stat1)) .reject initState).predictions = [pred1] ∧
       (fetchData (.response true (some [cam1])) (.response true (some [pred1]))
          (.response true (some stat1)) .reject initState).status = some stat1) := by
  decide

/-- C1 (amended): partial-failure isolation holds for a non-success status.
If the `/errors` fetch resolves with `ok = false` while the other three
resolve ok and decode, then after the cycle the SystemError list is unchanged
and the other three entities hold exactly the fetched values. (A network
error, i.e. a rejected promise, instead skips the whole cycle.) -/
theorem C1_partial_failure_isolation (vc : List Camera) (vp : List Prediction)
    (vs : Status) (eb : Option (List SystemError)) (st : AppState) :
    fetchData (.response true (some vc)) (.response true (some vp))
      (.response true (some vs)) (.response false eb) st
      = { cameras := vc, predictions := vp, status := some vs,
          errors := st.errors } := by
  rfl

/-- C2: `formatUptime` returns the hours/minutes rendering with truncating
division, for every non-negative integer, and on the four quoted examples. -/
theorem C2_formatUptime_correct :
    (∀ S : Nat, formatUptime S
        = toString (S / 3600) ++ "h " ++ toString (S % 3600 / 60) ++ "m")
    ∧ formatUptime 3661 = "1h 1m" ∧ formatUptime 59 = "0h 0m"
    ∧ formatUptime 7200 = "2h 0m" ∧ formatUptime 0 = "0h 0m" :=
  ⟨fun _ => rfl, rfl, rfl, rfl, rfl⟩

/-- C3: push prepend — when the pushed payload decodes to `p0`, the handler
replaces the prediction sequence by `p0` consed onto the previous sequence,
previous items kept in order. -/
theorem C3_push_prepend (parse : String → Option Prediction) (data : String)
    (p0 : Prediction) (st : AppState) (h : parse data = some p0) :
    (step parse st (.push data)).predictions = p0 :: st.predictions := by
  simp [step, sensorDataHandler, h]

/-- C3 (witness): from predictions `[pred1, pred2]`, pushing the payload that
decodes to `pred0` yields `[pred0, pred1, pred2]`. -/
theorem C3_push_prepend_witness :
    (step parse0 { initState with predictions := [pred1, pred2] }
        (.push "payload0")).predictions = [pred0, pred1, pred2] :=
  C3_push_prepend parse0 "payload0" pred0
    { initState with predictions := [pred1, pred2] } (by decide)

/-- C4: poll-vs-push last write wins and is never merged. With a poll cycle
whose prediction response is `[pA, pB]` (and whose other fetches settle
without throwing) and a push decoding to `p0`, applying push then poll leaves
exactly `[pA, pB]`, and applying poll then push leaves exactly
`[p0, pA, pB]`. -/
theorem C4_poll_push_last_write_wins (parse : String → Option Prediction)
    (data : String) (p0 pA pB : Prediction) (c : FetchResult (List Camera))
    (s : FetchResult Status) (e : FetchResult (List SystemError)) (st : AppState)
    (hd : parse data = some p0) (hc : c.noThrow = true)
    (hs : s.settles = true) (he : e.settles = true) :
    (step parse (step parse st (.push data))
        (.poll c (.response true (some [pA, pB])) s e)).predictions = [pA, pB]
    ∧ (step parse (step parse st (.poll c (.response true (some [pA, pB])) s e))
        (.push data)).predictions = [p0, pA, pB] := by
  constructor
  · have h1 := fetchData_predictions_sets c [pA, pB] s e
      (step parse st (.push data)) hc hs he
    simpa [step] using h1
  · have h1 := fetchData_predictions_sets c [pA, pB] s e st hc hs he
    simp [step, sensorDataHandler, hd, h1]

/-- C4 (witness): both orderings at concrete inputs — push `pred0` against a
poll returning `[predA, predB]` with all fetches successful. -/
theorem C4_poll_push_last_write_wins_witness :
    (step parse0 (step parse0 initState (.push "payload0"))
        (.poll (.response true (some [cam1]))
          (.response true (some [predA, predB]))
          (.response true (some stat1))
          (.response true (some [err1])))).predictions = [predA, predB]
    ∧ (step parse0 (step parse0 initState
          (.poll (.response true (some [cam1]))
            (.response true (some [predA, predB]))
            (.response true (some stat1))
            (.response true (some [err1]))))
        (.push "payload0")).predictions = [pred0, predA, predB] :=
  C4_poll_push_last_write_wins parse0 "payload0" pred0 predA predB
    (.response true (some [cam1])) (.response true (some stat1))
    (.response true (some [err1])) initState (by decide) rfl rfl rfl

/-- C5: the snapshot's Status is none initially and stays none across any
event sequence containing no successful `/status` poll; and a poll cycle
whose `/status` response is ok with body `v` (with the earlier resources not
throwing and `/errors` not rejecting) leaves Status equal to exactly
`some v`, with no field-wise merge. -/
theorem C5_status_initial_absence_full_replace
    (parse : String → Option Prediction) (evs : List Event)
    (c : FetchResult (List Camera)) (p : FetchResult (List Prediction))
    (v : Status) (e : FetchResult (List SystemError)) (st : AppState)
    (hevs : ∀ ev ∈ evs, hasStatusSuccess ev = false)
    (hc : c.noThrow = true) (hp : p.noThrow = true) (he : e.settles = true) :
    initState.status = none
    ∧ (run parse evs).status = none
    ∧ (fetchData c p (.response true (some v)) e st).status = some v := by
  refine ⟨rfl, ?_, ?_⟩
  · exact run_status_none_aux parse evs initState hevs
  · exact fetchData_status_sets c p v e st hc hp he

/-- C5 (witness): a run of a failed-status poll followed by a push keeps
Status none, and a subsequent fully successful cycle replaces it with exactly
`stat2`. -/
theorem C5_status_initial_absence_full_replace_witness :
    initState.status = none
    ∧ (run parse0
        [Event.poll (.response true (some [cam1]))
            (.response true (some [predA, predB]))
            (.response false none) (.response true (some [err1])),
          Event.push "payload0"]).status = none
    ∧ (fetchData (.response true (some [cam1])) (.response true (some [predA]))
        (.response true (some stat2)) (.response true (some [err1]))
        initState).status = some stat2 :=
  C5_status_initial_absence_full_replace parse0
    [Event.poll (.response true (some [cam1]))
        (.response true (some [predA, predB]))
        (.response false none) (.response true (some [err1])),
      Event.push "payload0"]
    (.response true (some [cam1])) (.response true (some [predA])) stat2
    (.response true (some [err1])) initState (by decide) rfl rfl rfl

/-- C6 (counterexample): the claim says the four setters apply in the order
the responses arrive. With all four responses successful but arriving in the
order errors, status, predictions, cameras, the setters are still applied in
the fixed source order, so the applied order differs from the arrival
order. -/
theorem C6_counterexample :
    ((pollCycleTrace [Resource.errors, Resource.status, Resource.predictions,
          Resource.cameras]
        (.response true (some [cam1])) (.response true (some [pred1]))
        (.response true (some stat1)) (.response true (some [err1]))
        initState).2.map SetterEvent.resource)
      ≠ [Resource.errors, Resource.status, Resource.predictions,
          Resource.cameras] := by
  decide

/-- C6 (amended): within one poll cycle in which all four responses resolve
ok and decode, the four setters are applied in the fixed source order
cameras, predictions, status, errors — for every arrival order of the
responses — and all four applications belong to that one cycle's trace. -/
theorem C6_setter_order_fixed (arrival : List Resource) (vc : List Camera)
    (vp : List Prediction) (vs : Status) (ve : List SystemError) (st : AppState) :
    ((pollCycleTrace arrival (.response true (some vc))
        (.response true (some vp)) (.response true (some vs))
        (.response true (some ve)) st).2.map SetterEvent.resource)
      = [Resource.cameras, Resource.predictions, Resource.status,
          Resource.errors] := by
  rfl

/-- C7: an undecodable push payload makes the handler raise — the error
escapes the handler uncaught (`Except.error`) — and that handler invocation
leaves the snapshot's prediction sequence (indeed the whole snapshot)
unchanged. -/
theorem C7_push_decode_failure_unguarded (parse : String → Option Prediction)
    (data : String) (st : AppState) (h : parse data = none) :
    sensorDataHandler parse data st = .error "SyntaxError: JSON.parse"
    ∧ step parse st (.push data) = st := by
  constructor <;> simp [sensorDataHandler, step, h]

/-- C7 (witness): the payload "garbage" does not decode under `parse0`; the
handler errors and the state is untouched. -/
theorem C7_push_decode_failure_unguarded_witness :
    sensorDataHandler parse0 "garbage" initState
        = .error "SyntaxError: JSON.parse"
    ∧ step parse0 initState (.push "garbage") = initState :=
  C7_push_decode_failure_unguarded parse0 "garbage" initState (by decide)

/-- C8: the claim says unmount cancels the poll trigger AND tears down the
push connection. The cleanup in the code is only
`() => clearInterval(interval)`: after mount then unmount the poll interval
is gone but the sensor subscription is still registered, and a remount
produces two live subscriptions — the duplicate the claim says cannot
exist. -/
theorem C8_cleanup_keeps_socket_subscription :
    (effectCleanup (mountEffect ⟨0, 0⟩)).pollIntervals = 0
    ∧ (effectCleanup (mountEffect ⟨0, 0⟩)).sensorSubscriptions = 1
    ∧ (mountEffect (effectCleanup (mountEffect ⟨0, 0⟩))).sensorSubscriptions
        = 2 := by
  decide

/-- C9: implicit all-or-skip on rejection — if any one of the four fetches
rejects, `Promise.all` rejects, the catch runs, and no setter is applied: the
cycle returns the snapshot unchanged with an empty setter trace. -/
theorem C9_reject_skips_whole_cycle (c : FetchResult (List Camera))
    (p : FetchResult (List Prediction)) (s : FetchResult Status)
    (e : FetchResult (List SystemError)) (st : AppState)
    (h : c = .reject ∨ p = .reject ∨ s = .reject ∨ e = .reject) :
    fetchDataT c p s e st = (st, []) := by
  cases c <;> cases p <;> cases s <;> cases e <;>
    first
    | rfl
    | (rcases h with h | h | h | h <;> simp at h)

/-- C9 (witness): a cycle whose cameras fetch rejects while the other three
succeed applies nothing. -/
theorem C9_reject_skips_whole_cycle_witness :
    fetchDataT .reject (.response true (some [predA]))
      (.response true (some stat1)) (.response true (some [err1])) initState
      = (initState, []) :=
  C9_reject_skips_whole_cycle .reject (.response true (some [predA]))
    (.response true (some stat1)) (.response true (some [err1])) initState
    (Or.inl rfl)

/-- C10: push-event frame property — a `send_sensor_data` handler invocation
(whether the payload decodes or not) leaves the cameras list, the Status
value and the SystemError list of the snapshot unchanged. -/
theorem C10_push_frame_property (parse : String → Option Prediction)
    (data : String) (st : AppState) :
    (step parse st (.push data)).cameras = st.cameras
    ∧ (step parse st (.push data)).status = st.status
    ∧ (step parse st (.push data)).errors = st.errors := by
  cases hp : parse data <;> simp [step, sensorDataHandler, hp]

/-- C5 (counterexample): the claim's replacement half is unconditional over
cycles, but the cycle shares one try/catch: with a prior Status `stat1` and a
successful `/status` response `stat2`, a rejected cameras fetch in the same
cycle makes `await Promise.all` reject, `setStatus` never runs, and the
snapshot's Status stays `stat1` instead of the new response. -/
theorem C5_counterexample :
    (fetchData .reject (.response true (some [pred1]))
        (.response true (some stat2)) (.response true (some [err1]))
        { initState with status := some stat1 }).status ≠ some stat2 := by
  decide
